import Mathlib

/-
Shallow embedding of src/src/utils/socket.ts (class SocketClient).

The client is modelled as a record of its mutable fields.  Methods become
pure functions from the client state to a new state plus a list of
observable effects (console output, transport operations, timer
operations, subscriber invocations).  JavaScript handler sets are
modelled as lists of handler identifiers kept in insertion order with
duplicates removed, matching the iteration order and uniqueness of a JS
Set.  A handler that may throw is modelled by an oracle mapping the
handler id (and, for message handlers, the delivered datum) to a Bool;
an escaping exception is the Bool component of a result.  JSON.parse is
an environment capability, modelled by an arbitrary function
parse : String → Option J where some means a successful parse.
-/

namespace VueSocket

def WebSocket.CONNECTING : Nat := 0

def WebSocket.OPEN : Nat := 1

def WebSocket.CLOSING : Nat := 2

def WebSocket.CLOSED : Nat := 3

/-- The underlying transport handle (a browser WebSocket object):
its identity, its readiness state (set by the environment), and whether
the four event callbacks of this client are currently assigned to it. -/
structure WS where
  id : Nat
  readyState : Nat
  callbacksBoundToClient : Bool
deriving DecidableEq, Repr

/-- The SocketOptions interface of the source: url plus four optional
fields.  Numeric fields are Option Nat, none standing for undefined. -/
structure SocketOptions where
  url : String
  protocols : Option (List String) := none
  heartbeatInterval : Option Nat := none
  reconnectInterval : Option Nat := none
  reconnectAttempts : Option Nat := none
deriving DecidableEq, Repr

/-- JavaScript `x || d` for `x : number | undefined` restricted to
naturals: undefined and 0 are falsy and yield the default. -/
def jsOr (v : Option Nat) (d : Nat) : Nat :=
  match v with
  | some n => if n = 0 then d else n
  | none => d

/-- The mutable fields of class SocketClient. -/
structure SocketClient where
  url : String
  protocols : Option (List String)
  heartbeatInterval : Nat
  reconnectInterval : Nat
  reconnectAttempts : Nat
  currentReconnectAttempts : Nat := 0
  heartbeatTimer : Option Nat := none
  reconnectTimer : Option Nat := none
  isManualClose : Bool := false
  messageHandlers : List Nat := []
  openHandlers : List Nat := []
  closeHandlers : List Nat := []
  errorHandlers : List Nat := []
  ws : Option WS := none
deriving DecidableEq, Repr

/-- The constructor of SocketClient: each numeric option defaults via
JavaScript `||`. -/
def SocketClient.init (o : SocketOptions) : SocketClient :=
  { url := o.url
    protocols := o.protocols
    heartbeatInterval := jsOr o.heartbeatInterval 30000
    reconnectInterval := jsOr o.reconnectInterval 5000
    reconnectAttempts := jsOr o.reconnectAttempts 5 }

/-- Payload of send(): string | ArrayBufferLike | Blob | ArrayBufferView. -/
inductive Payload where
  | text (s : String)
  | binary (bytes : List Nat)
  | blob (bytes : List Nat)
deriving DecidableEq, Repr

/-- The datum delivered to a message handler: either the value produced
by a successful JSON.parse, or the raw event.data string. -/
inductive MsgData (J : Type) where
  | parsed (j : J)
  | raw (s : String)
deriving DecidableEq, Repr

/-- Observable effects of the client's code, in program order. -/
inductive Effect (J : Type) where
  | consoleLog (msg : String)
  | consoleWarn (msg : String)
  | consoleError (msg : String)
  | createWS (wsId : Nat)
  | bindCallbacks (wsId : Nat)
  | wsSend (wsId : Nat) (data : Payload)
  | wsClose (wsId : Nat)
  | setIntervalT (timerId interval : Nat)
  | clearIntervalT (timerId : Nat)
  | setTimeoutT (timerId delay : Nat)
  | clearTimeoutT (timerId : Nat)
  | callMessage (handler : Nat) (data : MsgData J)
  | callOpen (handler : Nat)
  | callClose (handler : Nat)
  | callError (handler : Nat)
deriving DecidableEq, Repr

variable {J : Type}

/-- `this.ws?.readyState === WebSocket.OPEN`. -/
def SocketClient.wsIsOpen (c : SocketClient) : Bool :=
  match c.ws with
  | some w => w.readyState == WebSocket.OPEN
  | none => false

/-- JS Set.add: append only if not already present (insertion order). -/
def setAdd (l : List Nat) (h : Nat) : List Nat :=
  if h ∈ l then l else l ++ [h]

def SocketClient.onMessage (c : SocketClient) (h : Nat) : SocketClient :=
  { c with messageHandlers := setAdd c.messageHandlers h }

def SocketClient.onOpen (c : SocketClient) (h : Nat) : SocketClient :=
  { c with openHandlers := setAdd c.openHandlers h }

def SocketClient.onClose (c : SocketClient) (h : Nat) : SocketClient :=
  { c with closeHandlers := setAdd c.closeHandlers h }

def SocketClient.onError (c : SocketClient) (h : Nat) : SocketClient :=
  { c with errorHandlers := setAdd c.errorHandlers h }

/-- The unsubscribe closure returned by onMessage (Set.delete). -/
def SocketClient.offMessage (c : SocketClient) (h : Nat) : SocketClient :=
  { c with messageHandlers := c.messageHandlers.erase h }

def SocketClient.getReadyState (c : SocketClient) : Nat :=
  match c.ws with
  | some w => w.readyState
  | none => WebSocket.CLOSED

/-- send(data): forwards to the transport only when readyState is OPEN;
otherwise only a console warning.  No state change in either branch. -/
def SocketClient.send (c : SocketClient) (data : Payload) : List (Effect J) :=
  match c.ws with
  | some w =>
      if w.readyState == WebSocket.OPEN then [Effect.wsSend w.id data]
      else [Effect.consoleWarn "WebSocket未连接"]
  | none => [Effect.consoleWarn "WebSocket未连接"]

/-- stopHeartbeat(): `if (this.heartbeatTimer)` — a timer id is truthy
when non-null and non-zero. -/
def SocketClient.stopHeartbeat (c : SocketClient) : SocketClient × List (Effect J) :=
  match c.heartbeatTimer with
  | some t =>
      if t ≠ 0 then ({ c with heartbeatTimer := none }, [Effect.clearIntervalT t])
      else (c, [])
  | none => (c, [])

/-- startHeartbeat(): first stopHeartbeat(), then register a fresh
interval timer; `hbId` is the id the environment returns from
window.setInterval. -/
def SocketClient.startHeartbeat (c : SocketClient) (hbId : Nat) : SocketClient × List (Effect J) :=
  let p := SocketClient.stopHeartbeat (J := J) c
  ({ p.1 with heartbeatTimer := some hbId },
   p.2 ++ [Effect.setIntervalT hbId c.heartbeatInterval])

/-- The fixed keep-alive text JSON.stringify(\x7b type: 'ping' \x7d). -/
def pingMessage : String := "\x7b\"type\":\"ping\"\x7d"

/-- The body of the heartbeat interval callback: send the ping only if
the transport is open at fire time. -/
def SocketClient.heartbeatTick (c : SocketClient) : List (Effect J) :=
  if c.wsIsOpen then SocketClient.send c (Payload.text pingMessage) else []

/-- stopReconnect(): `if (this.reconnectTimer)` with JS truthiness. -/
def SocketClient.stopReconnect (c : SocketClient) : SocketClient × List (Effect J) :=
  match c.reconnectTimer with
  | some t =>
      if t ≠ 0 then ({ c with reconnectTimer := none }, [Effect.clearTimeoutT t])
      else (c, [])
  | none => (c, [])

/-- reconnect(): guard on the attempt ceiling, otherwise increment the
counter and schedule one retry; the existing reconnectTimer handle is
overwritten without being cleared.  `tid` is the id the environment
returns from window.setTimeout. -/
def SocketClient.reconnect (c : SocketClient) (tid : Nat) : SocketClient × List (Effect J) :=
  if c.currentReconnectAttempts ≥ c.reconnectAttempts then
    (c, [Effect.consoleError "WebSocket重连次数已达上限"])
  else
    ({ c with currentReconnectAttempts := c.currentReconnectAttempts + 1
              reconnectTimer := some tid },
     [Effect.consoleLog ("WebSocket重连中...第" ++ toString (c.currentReconnectAttempts + 1) ++ "次"),
      Effect.setTimeoutT tid c.reconnectInterval])

/-- connect(): warn and return if already open; on transport
construction failure go straight to reconnect(); on success install a
fresh CONNECTING transport with the four callbacks bound, overwriting
the previous handle. -/
def SocketClient.connect (c : SocketClient) (newId : Nat) (ctorThrows : Bool) (tid : Nat) :
    SocketClient × List (Effect J) :=
  if c.wsIsOpen then (c, [Effect.consoleWarn "WebSocket已连接"])
  else if ctorThrows then
    let q := SocketClient.reconnect (J := J) c tid
    (q.1, Effect.consoleError "WebSocket连接失败:" :: q.2)
  else
    ({ c with ws := some { id := newId
                           readyState := WebSocket.CONNECTING
                           callbacksBoundToClient := true } },
     [Effect.createWS newId, Effect.bindCallbacks newId])

/-- close(): set the manual flag, cancel both timers, close and release
the transport if present. -/
def SocketClient.close (c : SocketClient) : SocketClient × List (Effect J) :=
  let c1 : SocketClient := { c with isManualClose := true }
  let p := SocketClient.stopHeartbeat (J := J) c1
  let q := SocketClient.stopReconnect (J := J) p.1
  match q.1.ws with
  | some w => ({ q.1 with ws := none }, p.2 ++ q.2 ++ [Effect.wsClose w.id])
  | none => (q.1, p.2 ++ q.2)

/-- JS Set.forEach over handlers where a handler may throw: handlers
are invoked in order up to and including the first throwing one, whose
exception then escapes (second component true). -/
def runCallbacks (mk : Nat → Effect J) (th : Nat → Bool) : List Nat → List (Effect J) × Bool
  | [] => ([], false)
  | h :: t =>
      if th h then ([mk h], true)
      else
        let r := runCallbacks mk th t
        (mk h :: r.1, r.2)

/-- handleOpen(): log, reset the attempt counter, restart the
heartbeat, then invoke the open handlers with no per-handler guard. -/
def SocketClient.handleOpen (c : SocketClient) (hbId : Nat) (th : Nat → Bool) :
    SocketClient × List (Effect J) × Bool :=
  let c1 : SocketClient := { c with currentReconnectAttempts := 0 }
  let p := SocketClient.startHeartbeat (J := J) c1 hbId
  let r := runCallbacks Effect.callOpen th c.openHandlers
  (p.1, Effect.consoleLog "WebSocket连接成功" :: p.2 ++ r.1, r.2)

/-- handleMessage(): try JSON.parse and deliver the parsed value; the
catch covers both a parse failure and a handler throwing during parsed
delivery, and in both cases re-runs delivery with the raw payload. -/
def SocketClient.handleMessage (c : SocketClient) (parse : String → Option J)
    (th : Nat → MsgData J → Bool) (raw : String) : List (Effect J) × Bool :=
  match parse raw with
  | some j =>
      let r := runCallbacks (fun h => Effect.callMessage h (MsgData.parsed j))
        (fun h => th h (MsgData.parsed j)) c.messageHandlers
      if r.2 then
        let r2 := runCallbacks (fun h => Effect.callMessage h (MsgData.raw raw))
          (fun h => th h (MsgData.raw raw)) c.messageHandlers
        (r.1 ++ r2.1, r2.2)
      else (r.1, false)
  | none =>
      runCallbacks (fun h => Effect.callMessage h (MsgData.raw raw))
        (fun h => th h (MsgData.raw raw)) c.messageHandlers

/-- handleClose(): log, stop the heartbeat, invoke close handlers, then
reconnect only when the close was not manual (and no handler threw). -/
def SocketClient.handleClose (c : SocketClient) (th : Nat → Bool) (tid : Nat) :
    SocketClient × List (Effect J) × Bool :=
  let p := SocketClient.stopHeartbeat (J := J) c
  let r := runCallbacks Effect.callClose th c.closeHandlers
  if r.2 then
    (p.1, Effect.consoleLog "WebSocket连接关闭" :: p.2 ++ r.1, true)
  else if p.1.isManualClose then
    (p.1, Effect.consoleLog "WebSocket连接关闭" :: p.2 ++ r.1, false)
  else
    let q := SocketClient.reconnect (J := J) p.1 tid
    (q.1, Effect.consoleLog "WebSocket连接关闭" :: p.2 ++ r.1 ++ q.2, false)

/-- handleError(): log and invoke the error handlers; no state change. -/
def SocketClient.handleError (c : SocketClient) (th : Nat → Bool) : List (Effect J) × Bool :=
  let r := runCallbacks Effect.callError th c.errorHandlers
  (Effect.consoleError "WebSocket错误:" :: r.1, r.2)

/-- The environment capabilities a run depends on: how JSON.parse
behaves and which subscriber invocations throw. -/
structure Env (J : Type) where
  parse : String → Option J
  thOpen : Nat → Bool := fun _ => false
  thMsg : Nat → MsgData J → Bool := fun _ _ => false
  thClose : Nat → Bool := fun _ => false
  thError : Nat → Bool := fun _ => false

/-- One event of an execution: a public method call, a transport event
dispatched by the event loop, or a heartbeat timer tick.  Fresh timer
and transport ids that the environment would return are carried on the
event. -/
inductive Ev where
  | connectCall (newId : Nat) (ctorThrows : Bool) (tid : Nat)
  | sendCall (p : Payload)
  | closeCall
  | openEvt (hbId : Nat)
  | messageEvt (raw : String)
  | closeEvt (tid : Nat)
  | errorEvt
  | hbTick
deriving DecidableEq, Repr

/-- The environment flips the current transport's readyState before
dispatching its open or close event. -/
def envSetReadyState (c : SocketClient) (rs : Nat) : SocketClient :=
  match c.ws with
  | some w => { c with ws := some { w with readyState := rs } }
  | none => c

/-- Dispatch one event against the client. -/
def step (env : Env J) (c : SocketClient) : Ev → SocketClient × List (Effect J)
  | Ev.connectCall newId ctorThrows tid => SocketClient.connect c newId ctorThrows tid
  | Ev.sendCall p => (c, SocketClient.send c p)
  | Ev.closeCall => SocketClient.close c
  | Ev.openEvt hbId =>
      let r := SocketClient.handleOpen (envSetReadyState c WebSocket.OPEN) hbId env.thOpen
      (r.1, r.2.1)
  | Ev.messageEvt raw =>
      (c, (SocketClient.handleMessage c env.parse env.thMsg raw).1)
  | Ev.closeEvt tid =>
      let r := SocketClient.handleClose (envSetReadyState c WebSocket.CLOSED) env.thClose tid
      (r.1, r.2.1)
  | Ev.errorEvt => (c, (SocketClient.handleError c env.thError).1)
  | Ev.hbTick => (c, SocketClient.heartbeatTick c)

/-- Run a list of events, accumulating effects. -/
def run (env : Env J) (c : SocketClient) : List Ev → SocketClient × List (Effect J)
  | [] => (c, [])
  | e :: rest =>
      let p := step env c e
      let q := run env p.1 rest
      (q.1, p.2 ++ q.2)

def isSetTimeoutT : Effect J → Bool
  | Effect.setTimeoutT _ _ => true
  | _ => false

/-- Number of window.setTimeout registrations in an effect list — the
reconnect procedure is the only code that ever calls setTimeout, so
this counts scheduled reconnect attempts. -/
def countSetTimeouts (es : List (Effect J)) : Nat := es.countP isSetTimeoutT

def isCallOpenTo (h : Nat) : Effect J → Bool
  | Effect.callOpen x => x == h
  | _ => false

/-- How often handler `h` is invoked as an open handler. -/
def countOpenCalls (h : Nat) (es : List (Effect J)) : Nat := es.countP (isCallOpenTo h)

def isCallMessageTo (h : Nat) : Effect J → Bool
  | Effect.callMessage x _ => x == h
  | _ => false

/-- How often handler `h` is invoked as a message handler (with any
datum). -/
def countMsgCalls (h : Nat) (es : List (Effect J)) : Nat := es.countP (isCallMessageTo h)

def isCallOpenE : Effect J → Bool
  | Effect.callOpen _ => true
  | _ => false

def isCallCloseTo (h : Nat) : Effect J → Bool
  | Effect.callClose x => x == h
  | _ => false

/-- How often handler `h` is invoked as a close handler. -/
def countCloseCalls (h : Nat) (es : List (Effect J)) : Nat := es.countP (isCallCloseTo h)

def isCallErrorTo (h : Nat) : Effect J → Bool
  | Effect.callError x => x == h
  | _ => false

/-- How often handler `h` is invoked as an error handler. -/
def countErrorCalls (h : Nat) (es : List (Effect J)) : Nat := es.countP (isCallErrorTo h)

/-- The prefix of a handler list up to and including the first handler
the oracle marks as throwing. -/
def takeThrough (p : Nat → Bool) : List Nat → List Nat
  | [] => []
  | h :: t => if p h then [h] else h :: takeThrough p t

theorem runCallbacks_eq (mk : Nat → Effect J) (th : Nat → Bool) (hs : List Nat) :
    runCallbacks mk th hs = ((takeThrough th hs).map mk, hs.any th) := by
  induction hs with
  | nil => simp [runCallbacks, takeThrough]
  | cons h t ih =>
      by_cases hth : th h
      · simp [runCallbacks, takeThrough, hth]
      · simp [runCallbacks, takeThrough, hth, ih]

theorem takeThrough_sublist (p : Nat → Bool) (hs : List Nat) :
    (takeThrough p hs).Sublist hs := by
  induction hs with
  | nil => simp [takeThrough]
  | cons h t ih =>
      by_cases hp : p h
      · simp only [takeThrough, hp, if_true]
        exact (List.nil_sublist t).cons₂ h
      · simp only [takeThrough, hp, if_false, Bool.false_eq_true]
        exact ih.cons₂ h

theorem takeThrough_of_false (p : Nat → Bool) (hs : List Nat)
    (h : ∀ x ∈ hs, p x = false) : takeThrough p hs = hs := by
  induction hs with
  | nil => simp [takeThrough]
  | cons a t ih =>
      have ha : p a = false := h a (by simp)
      simp [takeThrough, ha]
      exact ih fun x hx => h x (by simp [hx])

theorem countSetTimeouts_append (a b : List (Effect J)) :
    countSetTimeouts (a ++ b) = countSetTimeouts a + countSetTimeouts b :=
  List.countP_append _ _ _

theorem countSetTimeouts_map (f : Nat → Effect J) (l : List Nat)
    (h : ∀ x, isSetTimeoutT (f x) = false) : countSetTimeouts (l.map f) = 0 := by
  unfold countSetTimeouts
  rw [List.countP_map]
  simp [Function.comp, h]

theorem countOpenCalls_map (h : Nat) (l : List Nat) :
    countOpenCalls h (l.map Effect.callOpen : List (Effect J)) = l.count h := by
  unfold countOpenCalls
  rw [List.countP_map]
  have hfun : (isCallOpenTo h ∘ (Effect.callOpen : Nat → Effect J)) = fun x => x == h := by
    funext x
    simp [Function.comp, isCallOpenTo]
  rw [hfun, List.count]

theorem countMsgCalls_map (h : Nat) (d : MsgData J) (l : List Nat) :
    countMsgCalls h (l.map fun x => Effect.callMessage x d) = l.count h := by
  unfold countMsgCalls
  rw [List.countP_map]
  have hfun : (isCallMessageTo h ∘ fun x => (Effect.callMessage x d : Effect J)) = fun x => x == h := by
    funext x
    simp [Function.comp, isCallMessageTo]
  rw [hfun, List.count]

theorem countSetTimeouts_cons (e : Effect J) (t : List (Effect J)) :
    countSetTimeouts (e :: t) = countSetTimeouts t + (if isSetTimeoutT e then 1 else 0) :=
  List.countP_cons _ _ _

theorem countSetTimeouts_nil : countSetTimeouts ([] : List (Effect J)) = 0 := rfl

theorem stopHeartbeat_spec (J : Type) (c : SocketClient) :
    ((SocketClient.stopHeartbeat (J := J) c).1.currentReconnectAttempts = c.currentReconnectAttempts)
    ∧ ((SocketClient.stopHeartbeat (J := J) c).1.reconnectAttempts = c.reconnectAttempts)
    ∧ ((SocketClient.stopHeartbeat (J := J) c).1.ws = c.ws)
    ∧ ((SocketClient.stopHeartbeat (J := J) c).1.isManualClose = c.isManualClose)
    ∧ ((SocketClient.stopHeartbeat (J := J) c).1.reconnectTimer = c.reconnectTimer)
    ∧ (countSetTimeouts (SocketClient.stopHeartbeat (J := J) c).2 = 0) := by
  unfold SocketClient.stopHeartbeat
  cases hhb : c.heartbeatTimer with
  | none => simp [countSetTimeouts]
  | some t =>
      by_cases ht : t = 0
      · simp [ht, countSetTimeouts]
      · simp [ht, countSetTimeouts, isSetTimeoutT]

theorem stopReconnect_spec (J : Type) (c : SocketClient) :
    ((SocketClient.stopReconnect (J := J) c).1.currentReconnectAttempts = c.currentReconnectAttempts)
    ∧ ((SocketClient.stopReconnect (J := J) c).1.reconnectAttempts = c.reconnectAttempts)
    ∧ ((SocketClient.stopReconnect (J := J) c).1.ws = c.ws)
    ∧ ((SocketClient.stopReconnect (J := J) c).1.isManualClose = c.isManualClose)
    ∧ ((SocketClient.stopReconnect (J := J) c).1.heartbeatTimer = c.heartbeatTimer)
    ∧ (countSetTimeouts (SocketClient.stopReconnect (J := J) c).2 = 0) := by
  unfold SocketClient.stopReconnect
  cases hr : c.reconnectTimer with
  | none => simp [countSetTimeouts]
  | some t =>
      by_cases ht : t = 0
      · simp [ht, countSetTimeouts]
      · simp [ht, countSetTimeouts, isSetTimeoutT]

theorem reconnect_spec (J : Type) (c : SocketClient) (tid : Nat) :
    ((SocketClient.reconnect (J := J) c tid).1.reconnectAttempts = c.reconnectAttempts)
    ∧ ((SocketClient.reconnect (J := J) c tid).1.currentReconnectAttempts
        = c.currentReconnectAttempts + countSetTimeouts (SocketClient.reconnect (J := J) c tid).2)
    ∧ (c.currentReconnectAttempts ≤ c.reconnectAttempts →
        (SocketClient.reconnect (J := J) c tid).1.currentReconnectAttempts ≤ c.reconnectAttempts)
    ∧ ((SocketClient.reconnect (J := J) c tid).1.heartbeatTimer = c.heartbeatTimer)
    ∧ ((SocketClient.reconnect (J := J) c tid).1.ws = c.ws)
    ∧ ((SocketClient.reconnect (J := J) c tid).1.isManualClose = c.isManualClose)
    ∧ (c.currentReconnectAttempts ≥ c.reconnectAttempts →
        countSetTimeouts (SocketClient.reconnect (J := J) c tid).2 = 0) := by
  unfold SocketClient.reconnect
  by_cases hge : c.currentReconnectAttempts ≥ c.reconnectAttempts
  · simp [hge, countSetTimeouts, isSetTimeoutT]
  · simp [hge, countSetTimeouts, isSetTimeoutT]
    omega

theorem handleClose_spec (J : Type) (c : SocketClient) (th : Nat → Bool) (tid : Nat) :
    ((SocketClient.handleClose (J := J) c th tid).1.reconnectAttempts = c.reconnectAttempts)
    ∧ ((SocketClient.handleClose (J := J) c th tid).1.currentReconnectAttempts
        = c.currentReconnectAttempts + countSetTimeouts (SocketClient.handleClose (J := J) c th tid).2.1)
    ∧ (c.currentReconnectAttempts ≤ c.reconnectAttempts →
        (SocketClient.handleClose (J := J) c th tid).1.currentReconnectAttempts ≤ c.reconnectAttempts)
    ∧ ((SocketClient.handleClose (J := J) c th tid).1.ws = c.ws)
    ∧ (c.currentReconnectAttempts ≥ c.reconnectAttempts →
        countSetTimeouts (SocketClient.handleClose (J := J) c th tid).2.1 = 0)
    ∧ ((SocketClient.handleClose (J := J) c th tid).1.heartbeatTimer
        = (SocketClient.stopHeartbeat (J := J) c).1.heartbeatTimer) := by
  obtain ⟨s1, s2, s3, s4, s5, s6⟩ := stopHeartbeat_spec J c
  have hmap : countSetTimeouts ((takeThrough th c.closeHandlers).map (Effect.callClose : Nat → Effect J)) = 0 :=
    countSetTimeouts_map _ _ (fun x => rfl)
  simp only [SocketClient.handleClose, runCallbacks_eq]
  by_cases hth : c.closeHandlers.any th
  · simp only [hth, if_true]
    simp [countSetTimeouts_cons, countSetTimeouts_append, isSetTimeoutT, hmap, s1, s2, s3, s4, s6]
  · simp only [hth, Bool.false_eq_true, if_false]
    by_cases hman : (SocketClient.stopHeartbeat (J := J) c).1.isManualClose
    · simp only [hman, if_true]
      simp [countSetTimeouts_cons, countSetTimeouts_append, isSetTimeoutT, hmap, s1, s2, s3, s4, s6]
    · simp only [hman, Bool.false_eq_true, if_false]
      obtain ⟨r1, r2, r3, r4, r5, r6, r7⟩ :=
        reconnect_spec J (SocketClient.stopHeartbeat (J := J) c).1 tid
      simp only [countSetTimeouts_cons, countSetTimeouts_append, isSetTimeoutT, hmap, s6]
      refine ⟨by rw [r1, s2], ?_, ?_, by rw [r5, s3], ?_, r4⟩
      · rw [r2, s1]
        simp
      · intro hle
        have := r3 (by rw [s1, s2]; exact hle)
        rw [s2] at this
        simpa using this
      · intro hge
        have := r7 (by rw [s1, s2]; exact hge)
        simpa using this

theorem envSetReadyState_spec (c : SocketClient) (rs : Nat) :
    ((envSetReadyState c rs).currentReconnectAttempts = c.currentReconnectAttempts)
    ∧ ((envSetReadyState c rs).reconnectAttempts = c.reconnectAttempts)
    ∧ ((envSetReadyState c rs).isManualClose = c.isManualClose)
    ∧ ((envSetReadyState c rs).heartbeatTimer = c.heartbeatTimer)
    ∧ ((envSetReadyState c rs).reconnectTimer = c.reconnectTimer)
    ∧ ((envSetReadyState c rs).closeHandlers = c.closeHandlers) := by
  unfold envSetReadyState
  cases c.ws <;> simp

theorem startHeartbeat_spec (J : Type) (c : SocketClient) (hbId : Nat) :
    ((SocketClient.startHeartbeat (J := J) c hbId).1.currentReconnectAttempts = c.currentReconnectAttempts)
    ∧ ((SocketClient.startHeartbeat (J := J) c hbId).1.reconnectAttempts = c.reconnectAttempts)
    ∧ ((SocketClient.startHeartbeat (J := J) c hbId).1.heartbeatTimer = some hbId)
    ∧ ((SocketClient.startHeartbeat (J := J) c hbId).1.ws = c.ws)
    ∧ (countSetTimeouts (SocketClient.startHeartbeat (J := J) c hbId).2 = 0) := by
  obtain ⟨s1, s2, s3, s4, s5, s6⟩ := stopHeartbeat_spec J c
  simp only [SocketClient.startHeartbeat]
  simp [countSetTimeouts_append, countSetTimeouts_cons, countSetTimeouts_nil, isSetTimeoutT,
    s1, s2, s3, s6]

theorem handleOpen_spec (J : Type) (c : SocketClient) (hbId : Nat) (th : Nat → Bool) :
    ((SocketClient.handleOpen (J := J) c hbId th).1.currentReconnectAttempts = 0)
    ∧ ((SocketClient.handleOpen (J := J) c hbId th).1.reconnectAttempts = c.reconnectAttempts)
    ∧ (countSetTimeouts (SocketClient.handleOpen (J := J) c hbId th).2.1 = 0)
    ∧ ((SocketClient.handleOpen (J := J) c hbId th).1.heartbeatTimer = some hbId)
    ∧ ((SocketClient.handleOpen (J := J) c hbId th).1.ws = c.ws) := by
  obtain ⟨t1, t2, t3, t4, t5⟩ := startHeartbeat_spec J { c with currentReconnectAttempts := 0 } hbId
  have hmap : countSetTimeouts ((takeThrough th c.openHandlers).map (Effect.callOpen : Nat → Effect J)) = 0 :=
    countSetTimeouts_map _ _ (fun x => rfl)
  simp only [SocketClient.handleOpen, runCallbacks_eq]
  simp [countSetTimeouts_cons, countSetTimeouts_append, isSetTimeoutT, hmap, t1, t2, t3, t4, t5]

theorem handleMessage_countST (J : Type) (c : SocketClient) (parse : String → Option J)
    (th : Nat → MsgData J → Bool) (raw : String) :
    countSetTimeouts (SocketClient.handleMessage c parse th raw).1 = 0 := by
  unfold SocketClient.handleMessage
  cases hp : parse raw with
  | none =>
      rw [runCallbacks_eq]
      exact countSetTimeouts_map _ _ (fun x => rfl)
  | some j =>
      simp only [runCallbacks_eq]
      have hm1 : countSetTimeouts ((takeThrough (fun h => th h (MsgData.parsed j)) c.messageHandlers).map
          (fun h => (Effect.callMessage h (MsgData.parsed j) : Effect J))) = 0 :=
        countSetTimeouts_map _ _ (fun x => rfl)
      have hm2 : countSetTimeouts ((takeThrough (fun h => th h (MsgData.raw raw)) c.messageHandlers).map
          (fun h => (Effect.callMessage h (MsgData.raw raw) : Effect J))) = 0 :=
        countSetTimeouts_map _ _ (fun x => rfl)
      by_cases hany : c.messageHandlers.any (fun h => th h (MsgData.parsed j))
      · simp [hany, countSetTimeouts_append, hm1, hm2]
      · simp [hany, hm1]

theorem handleError_countST (J : Type) (c : SocketClient) (th : Nat → Bool) :
    countSetTimeouts (SocketClient.handleError (J := J) c th).1 = 0 := by
  have hm : countSetTimeouts ((takeThrough th c.errorHandlers).map (Effect.callError : Nat → Effect J)) = 0 :=
    countSetTimeouts_map _ _ (fun x => rfl)
  simp only [SocketClient.handleError, runCallbacks_eq]
  simp [countSetTimeouts_cons, isSetTimeoutT, hm]

theorem send_countST (J : Type) (c : SocketClient) (p : Payload) :
    countSetTimeouts (SocketClient.send (J := J) c p) = 0 := by
  unfold SocketClient.send
  cases c.ws with
  | none => simp [countSetTimeouts, isSetTimeoutT]
  | some w =>
      by_cases hw : w.readyState == WebSocket.OPEN
      · simp [hw, countSetTimeouts, isSetTimeoutT]
      · simp [hw, countSetTimeouts, isSetTimeoutT]

theorem heartbeatTick_countST (J : Type) (c : SocketClient) :
    countSetTimeouts (SocketClient.heartbeatTick (J := J) c) = 0 := by
  unfold SocketClient.heartbeatTick
  by_cases h : c.wsIsOpen
  · simp [h, send_countST]
  · simp [h, countSetTimeouts]

theorem connect_spec (J : Type) (c : SocketClient) (newId : Nat) (ctorThrows : Bool) (tid : Nat) :
    ((SocketClient.connect (J := J) c newId ctorThrows tid).1.reconnectAttempts = c.reconnectAttempts)
    ∧ ((SocketClient.connect (J := J) c newId ctorThrows tid).1.currentReconnectAttempts
        = c.currentReconnectAttempts + countSetTimeouts (SocketClient.connect (J := J) c newId ctorThrows tid).2)
    ∧ (c.currentReconnectAttempts ≤ c.reconnectAttempts →
        (SocketClient.connect (J := J) c newId ctorThrows tid).1.currentReconnectAttempts ≤ c.reconnectAttempts)
    ∧ ((SocketClient.connect (J := J) c newId ctorThrows tid).1.isManualClose = c.isManualClose)
    ∧ ((SocketClient.connect (J := J) c newId ctorThrows tid).1.heartbeatTimer = c.heartbeatTimer) := by
  unfold SocketClient.connect
  by_cases h1 : c.wsIsOpen
  · simp [h1, countSetTimeouts, isSetTimeoutT]
  · cases ctorThrows with
    | false => simp [h1, countSetTimeouts, isSetTimeoutT]
    | true =>
        obtain ⟨r1, r2, r3, r4, r5, r6, r7⟩ := reconnect_spec J c tid
        simp [h1, countSetTimeouts_cons, isSetTimeoutT, r1, r2, r3, r4, r6]
        intro hle
        have h3 := r3 hle
        rw [r2] at h3
        exact h3

theorem close_spec (J : Type) (c : SocketClient) :
    ((SocketClient.close (J := J) c).1.currentReconnectAttempts = c.currentReconnectAttempts)
    ∧ ((SocketClient.close (J := J) c).1.reconnectAttempts = c.reconnectAttempts)
    ∧ ((SocketClient.close (J := J) c).1.isManualClose = true)
    ∧ ((SocketClient.close (J := J) c).1.ws = none)
    ∧ (countSetTimeouts (SocketClient.close (J := J) c).2 = 0) := by
  obtain ⟨s1, s2, s3, s4, s5, s6⟩ := stopHeartbeat_spec J ({ c with isManualClose := true })
  obtain ⟨u1, u2, u3, u4, u5, u6⟩ :=
    stopReconnect_spec J (SocketClient.stopHeartbeat (J := J) { c with isManualClose := true }).1
  simp only [SocketClient.close]
  cases hws : (SocketClient.stopReconnect (J := J)
      (SocketClient.stopHeartbeat (J := J) { c with isManualClose := true }).1).1.ws with
  | none =>
      simp only [hws]
      simp [countSetTimeouts_append, hws, s1, s2, s4, s6, u1, u2, u4, u6]
  | some w =>
      simp only [hws]
      simp [countSetTimeouts_append, countSetTimeouts_cons, countSetTimeouts_nil, isSetTimeoutT,
        s1, s2, s4, s6, u1, u2, u4, u6]

def Ev.isOpenEvt : Ev → Bool
  | Ev.openEvt _ => true
  | _ => false

theorem step_counter (J : Type) (env : Env J) (c : SocketClient) (e : Ev)
    (hne : e.isOpenEvt = false) :
    ((step env c e).1.reconnectAttempts = c.reconnectAttempts)
    ∧ ((step env c e).1.currentReconnectAttempts
        = c.currentReconnectAttempts + countSetTimeouts (step env c e).2)
    ∧ (c.currentReconnectAttempts ≤ c.reconnectAttempts →
        (step env c e).1.currentReconnectAttempts ≤ c.reconnectAttempts) := by
  cases e with
  | connectCall newId ctorThrows tid =>
      obtain ⟨h1, h2, h3, h4, h5⟩ := connect_spec J c newId ctorThrows tid
      exact ⟨h1, h2, h3⟩
  | sendCall p =>
      have h := send_countST J c p
      refine ⟨rfl, ?_, fun hle => hle⟩
      show c.currentReconnectAttempts
        = c.currentReconnectAttempts + countSetTimeouts (SocketClient.send c p)
      omega
  | closeCall =>
      obtain ⟨h1, h2, h3, h4, h5⟩ := close_spec J c
      refine ⟨h2, ?_, fun hle => ?_⟩
      · show (SocketClient.close c).1.currentReconnectAttempts
          = c.currentReconnectAttempts + countSetTimeouts (SocketClient.close c).2
        omega
      · show (SocketClient.close c).1.currentReconnectAttempts ≤ c.reconnectAttempts
        omega
  | openEvt hbId => simp [Ev.isOpenEvt] at hne
  | messageEvt raw =>
      have h := handleMessage_countST J c env.parse env.thMsg raw
      refine ⟨rfl, ?_, fun hle => hle⟩
      show c.currentReconnectAttempts = c.currentReconnectAttempts
        + countSetTimeouts (SocketClient.handleMessage c env.parse env.thMsg raw).1
      omega
  | closeEvt tid =>
      obtain ⟨e1, e2, e3, e4, e5, e6⟩ := envSetReadyState_spec c WebSocket.CLOSED
      obtain ⟨h1, h2, h3, h4, h5, h6⟩ :=
        handleClose_spec J (envSetReadyState c WebSocket.CLOSED) env.thClose tid
      refine ⟨?_, ?_, ?_⟩
      · show (SocketClient.handleClose (envSetReadyState c WebSocket.CLOSED) env.thClose tid).1.reconnectAttempts
          = c.reconnectAttempts
        rw [h1, e2]
      · show (SocketClient.handleClose (envSetReadyState c WebSocket.CLOSED) env.thClose tid).1.currentReconnectAttempts
          = c.currentReconnectAttempts
          + countSetTimeouts (SocketClient.handleClose (envSetReadyState c WebSocket.CLOSED) env.thClose tid).2.1
        rw [h2, e1]
      · intro hle
        have hb := h3 (by rw [e1, e2]; exact hle)
        rw [e2] at hb
        exact hb
  | errorEvt =>
      have h := handleError_countST J c env.thError
      refine ⟨rfl, ?_, fun hle => hle⟩
      show c.currentReconnectAttempts = c.currentReconnectAttempts
        + countSetTimeouts (SocketClient.handleError c env.thError).1
      omega
  | hbTick =>
      have h := heartbeatTick_countST J c
      refine ⟨rfl, ?_, fun hle => hle⟩
      show c.currentReconnectAttempts = c.currentReconnectAttempts
        + countSetTimeouts (SocketClient.heartbeatTick c)
      omega

theorem run_counter (J : Type) (env : Env J) (c : SocketClient) (evs : List Ev)
    (h : ∀ e ∈ evs, e.isOpenEvt = false) :
    ((run env c evs).1.reconnectAttempts = c.reconnectAttempts)
    ∧ ((run env c evs).1.currentReconnectAttempts
        = c.currentReconnectAttempts + countSetTimeouts (run env c evs).2)
    ∧ (c.currentReconnectAttempts ≤ c.reconnectAttempts →
        (run env c evs).1.currentReconnectAttempts ≤ c.reconnectAttempts) := by
  induction evs generalizing c with
  | nil => simp [run, countSetTimeouts_nil]
  | cons e rest ih =>
      have he : e.isOpenEvt = false := h e (by simp)
      obtain ⟨s1, s2, s3⟩ := step_counter J env c e he
      obtain ⟨i1, i2, i3⟩ := ih (step env c e).1 (fun x hx => h x (by simp [hx]))
      refine ⟨?_, ?_, ?_⟩
      · show (run env (step env c e).1 rest).1.reconnectAttempts = c.reconnectAttempts
        rw [i1, s1]
      · show (run env (step env c e).1 rest).1.currentReconnectAttempts
          = c.currentReconnectAttempts
          + countSetTimeouts ((step env c e).2 ++ (run env (step env c e).1 rest).2)
        rw [countSetTimeouts_append, i2, s2]
        omega
      · intro hle
        have hb := s3 hle
        have hi := i3 (by rw [s1]; exact hb)
        rw [s1] at hi
        exact hi

/-- C4 counterexample: a client constructed with reconnectAttempts
explicitly 0 adopts ceiling 5, not 0, because JavaScript `||` treats 0
as falsy; and such a client does schedule a reconnect attempt after an
abnormal transport close, contradicting the claim that it performs no
automatic reconnects. -/
theorem C4_counterexample :
    (let c0 := SocketClient.init { url := "ws://x", reconnectAttempts := some 0 }
     let env : Env Nat := { parse := fun _ => none }
     let c1 := (step env c0 (Ev.connectCall 1 false 0)).1
     c0.reconnectAttempts = 5 ∧ (5 : Nat) ≠ 0
       ∧ countSetTimeouts (step env c1 (Ev.closeEvt 7)).2 = 1) := by decide

/-- C4 (amended): an explicitly supplied nonzero maxReconnectAttempts
is adopted exactly as the reconnect ceiling; the default 5 applies when
the field is omitted, and also when 0 is supplied, since the
constructor evaluates `options.reconnectAttempts || 5` and 0 is falsy. -/
theorem C4_amended (o : SocketOptions) :
    (∀ n, o.reconnectAttempts = some n → n ≠ 0 → (SocketClient.init o).reconnectAttempts = n)
    ∧ (o.reconnectAttempts = none → (SocketClient.init o).reconnectAttempts = 5)
    ∧ (o.reconnectAttempts = some 0 → (SocketClient.init o).reconnectAttempts = 5) := by
  refine ⟨fun n hn hnz => ?_, fun hn => ?_, fun hn => ?_⟩
  · simp [SocketClient.init, jsOr, hn, hnz]
  · simp [SocketClient.init, jsOr, hn]
  · simp [SocketClient.init, jsOr, hn]

/-- C4 witness: a ceiling of 3 supplied explicitly is adopted. -/
theorem C4_witness :
    (SocketClient.init { url := "a", reconnectAttempts := some 3 }).reconnectAttempts = 3 :=
  (C4_amended { url := "a", reconnectAttempts := some 3 }).1 3 rfl (by decide)

/-- C9: send(payload) forwards the payload unmodified to the transport
exactly when the transport is open; otherwise the sole effect is a
console warning — no transport send, no state change, no exception. -/
theorem C9_sendGuard (J : Type) (c : SocketClient) (p : Payload) (w : WS) :
    (c.ws = some w → w.readyState = WebSocket.OPEN →
      SocketClient.send (J := J) c p = [Effect.wsSend w.id p])
    ∧ (c.wsIsOpen = false →
      SocketClient.send (J := J) c p = [Effect.consoleWarn "WebSocket未连接"]) := by
  constructor
  · intro hw hrs
    simp [SocketClient.send, hw, hrs]
  · intro hno
    cases hw : c.ws with
    | none => simp [SocketClient.send, hw]
    | some w2 =>
        simp only [SocketClient.wsIsOpen, hw] at hno
        simp [SocketClient.send, hw, hno]

/-- C9 witness: on an open transport with id 4 the payload is forwarded
as-is. -/
theorem C9_witness :
    SocketClient.send (J := Nat)
      { url := "u", protocols := none, heartbeatInterval := 30000, reconnectInterval := 5000,
        reconnectAttempts := 5, ws := some { id := 4, readyState := 1, callbacksBoundToClient := true } }
      (Payload.text "hi") = [Effect.wsSend 4 (Payload.text "hi")] :=
  (C9_sendGuard Nat
    { url := "u", protocols := none, heartbeatInterval := 30000, reconnectInterval := 5000,
      reconnectAttempts := 5, ws := some { id := 4, readyState := 1, callbacksBoundToClient := true } }
    (Payload.text "hi") { id := 4, readyState := 1, callbacksBoundToClient := true }).1 rfl rfl

/-- C10: connect() on a client whose transport handle exists but is not
open constructs a fresh connecting transport with this client's
callbacks bound and overwrites the handle; the emitted effects are
exactly transport construction and callback binding — in particular the
superseded transport is never closed and nothing unbinds its
callbacks. -/
theorem C10_connectOverwrites (J : Type) (c : SocketClient) (w : WS) (newId tid : Nat)
    (hw : c.ws = some w) (hns : w.readyState ≠ WebSocket.OPEN) :
    (SocketClient.connect (J := J) c newId false tid
      = ({ c with ws := some { id := newId, readyState := WebSocket.CONNECTING,
                               callbacksBoundToClient := true } },
         [Effect.createWS newId, Effect.bindCallbacks newId]))
    ∧ (∀ i, (Effect.wsClose i : Effect J) ∉ (SocketClient.connect (J := J) c newId false tid).2) := by
  have hno : c.wsIsOpen = false := by
    simp only [SocketClient.wsIsOpen, hw]
    simp [hns]
  constructor
  · simp [SocketClient.connect, hno]
  · intro i
    simp [SocketClient.connect, hno]

/-- C10 witness: a still-connecting transport (id 1) is superseded by a
new transport (id 2) with no close of the old one. -/
theorem C10_witness :
    SocketClient.connect (J := Nat)
      { url := "u", protocols := none, heartbeatInterval := 30000, reconnectInterval := 5000,
        reconnectAttempts := 5, ws := some { id := 1, readyState := 0, callbacksBoundToClient := true } }
      2 false 9
      = ({ url := "u", protocols := none, heartbeatInterval := 30000, reconnectInterval := 5000,
           reconnectAttempts := 5, ws := some { id := 2, readyState := 0, callbacksBoundToClient := true } },
         [Effect.createWS 2, Effect.bindCallbacks 2]) :=
  (C10_connectOverwrites Nat
    { url := "u", protocols := none, heartbeatInterval := 30000, reconnectInterval := 5000,
      reconnectAttempts := 5, ws := some { id := 1, readyState := 0, callbacksBoundToClient := true } }
    { id := 1, readyState := 0, callbacksBoundToClient := true } 2 9 rfl (by decide)).1

/-- C1 counterexample: after an abnormal close has scheduled reconnect
timer 1001, a manual connect() followed by another abnormal close
starts reconnect timer 1002 while 1001 is still live: the step emits a
setTimeout but no clearTimeout of 1001, which is merely overwritten. -/
theorem C1_counterexample :
    (let env : Env Nat := { parse := fun _ => none }
     let c0 := SocketClient.init { url := "ws://x" }
     let c1 := (run env c0 [Ev.connectCall 1 false 0, Ev.closeEvt 1001, Ev.connectCall 2 false 0]).1
     let r := step env c1 (Ev.closeEvt 1002)
     c1.reconnectTimer = some 1001
       ∧ countSetTimeouts r.2 = 1
       ∧ Effect.clearTimeoutT 1001 ∉ r.2
       ∧ r.1.reconnectTimer = some 1002) := by decide

/-- C1 (amended): the heartbeat half of the invariant holds —
startHeartbeat cancels a live heartbeat timer before registering the
new one — but the reconnect half fails: reconnect() never emits a
clearTimeout, so starting a new reconnect timer leaves a pre-existing
one live and only overwrites the stored handle. -/
theorem C1_amended (J : Type) (c : SocketClient) (hbId tid t : Nat) :
    (c.heartbeatTimer = some t → t ≠ 0 →
      (SocketClient.startHeartbeat (J := J) c hbId).2
        = [Effect.clearIntervalT t, Effect.setIntervalT hbId c.heartbeatInterval])
    ∧ ((SocketClient.startHeartbeat (J := J) c hbId).1.heartbeatTimer = some hbId)
    ∧ (∀ x, (Effect.clearTimeoutT x : Effect J) ∉ (SocketClient.reconnect (J := J) c tid).2) := by
  refine ⟨fun ht htz => ?_, ?_, fun x => ?_⟩
  · simp [SocketClient.startHeartbeat, SocketClient.stopHeartbeat, ht, htz]
  · simp [SocketClient.startHeartbeat]
  · by_cases hge : c.currentReconnectAttempts ≥ c.reconnectAttempts
    · simp [SocketClient.reconnect, hge]
    · simp [SocketClient.reconnect, hge]

/-- C1 witness: starting a heartbeat while timer 3 is live clears 3
first. -/
theorem C1_witness :
    (SocketClient.startHeartbeat (J := Nat)
      { url := "u", protocols := none, heartbeatInterval := 10, reconnectInterval := 5,
        reconnectAttempts := 5, heartbeatTimer := some 3 } 8).2
      = [Effect.clearIntervalT 3, Effect.setIntervalT 8 10] :=
  (C1_amended Nat
    { url := "u", protocols := none, heartbeatInterval := 10, reconnectInterval := 5,
      reconnectAttempts := 5, heartbeatTimer := some 3 } 8 0 3).1 rfl (by decide)

theorem startHeartbeat_noOpenCalls (J : Type) (c : SocketClient) (hbId : Nat) :
    (SocketClient.startHeartbeat (J := J) c hbId).2.filter isCallOpenE = [] := by
  unfold SocketClient.startHeartbeat SocketClient.stopHeartbeat
  cases hhb : c.heartbeatTimer with
  | none => simp [isCallOpenE]
  | some t => by_cases ht : t = 0 <;> simp [ht, isCallOpenE]

/-- C3 counterexample: with open subscribers [0, 1] in registration
order, subscriber 0 throwing prevents subscriber 1 from running, and
the exception escapes handleOpen. -/
theorem C3_counterexample :
    (let c := SocketClient.onOpen (SocketClient.onOpen (SocketClient.init { url := "u" }) 0) 1
     let r := SocketClient.handleOpen (J := Nat) c 11 (fun n => n == 0)
     c.openHandlers = [0, 1]
       ∧ Effect.callOpen 0 ∈ r.2.1
       ∧ Effect.callOpen 1 ∉ r.2.1
       ∧ r.2.2 = true) := by decide

/-- C3 (amended): on transport open the open-subscribers run in
registration order but each call is not guarded independently: exactly
the subscribers up to and including the first throwing one are invoked,
and that subscriber's exception escapes handleOpen, so the remaining
subscribers are skipped. -/
theorem C3_amended (J : Type) (c : SocketClient) (hbId : Nat) (th : Nat → Bool) :
    ((SocketClient.handleOpen (J := J) c hbId th).2.1.filter isCallOpenE
        = (takeThrough th c.openHandlers).map Effect.callOpen)
    ∧ ((SocketClient.handleOpen (J := J) c hbId th).2.2 = c.openHandlers.any th) := by
  constructor
  · have hsh := startHeartbeat_noOpenCalls J { c with currentReconnectAttempts := 0 } hbId
    have hmap : ((takeThrough th c.openHandlers).map (Effect.callOpen : Nat → Effect J)).filter isCallOpenE
        = (takeThrough th c.openHandlers).map Effect.callOpen := by
      apply List.filter_eq_self.mpr
      intro a ha
      obtain ⟨x, hx, rfl⟩ := List.mem_map.mp ha
      rfl
    simp only [SocketClient.handleOpen, runCallbacks_eq]
    simp [List.filter_cons, List.filter_append, hsh, hmap, isCallOpenE]
  · simp only [SocketClient.handleOpen, runCallbacks_eq]

theorem handleClose_manual (J : Type) (c : SocketClient) (th : Nat → Bool) (tid : Nat)
    (hman : c.isManualClose = true) :
    countSetTimeouts (SocketClient.handleClose (J := J) c th tid).2.1 = 0
    ∧ (SocketClient.handleClose (J := J) c th tid).1.currentReconnectAttempts
        = c.currentReconnectAttempts
    ∧ (SocketClient.handleClose (J := J) c th tid).1.reconnectTimer = c.reconnectTimer := by
  obtain ⟨s1, s2, s3, s4, s5, s6⟩ := stopHeartbeat_spec J c
  have hmap : countSetTimeouts ((takeThrough th c.closeHandlers).map (Effect.callClose : Nat → Effect J)) = 0 :=
    countSetTimeouts_map _ _ (fun x => rfl)
  simp only [SocketClient.handleClose, runCallbacks_eq]
  by_cases hth : c.closeHandlers.any th
  · simp [hth, countSetTimeouts_cons, countSetTimeouts_append, isSetTimeoutT, hmap, s1, s5, s6]
  · have hman2 : (SocketClient.stopHeartbeat (J := J) c).1.isManualClose = true := by
      rw [s4]
      exact hman
    simp [hth, hman2, countSetTimeouts_cons, countSetTimeouts_append, isSetTimeoutT, hmap,
      s1, s5, s6]

/-- C2 counterexample: connect, manual close, connect again; the
manualCloseRequested flag is still set after the second connect, so the
following abnormal transport close schedules no reconnect at all. -/
theorem C2_counterexample :
    (let env : Env Nat := { parse := fun _ => none }
     let c3 := (run env (SocketClient.init { url := "w" })
       [Ev.connectCall 1 false 0, Ev.closeCall, Ev.connectCall 2 false 0]).1
     let r := step env c3 (Ev.closeEvt 7)
     c3.isManualClose = true
       ∧ countSetTimeouts r.2 = 0
       ∧ r.1.reconnectTimer = none
       ∧ r.1.currentReconnectAttempts = 0) := by decide

/-- C2 (amended): connect() after a manual close() does construct a
fresh transport, but it never clears manualCloseRequested — the flag
remains true, so a subsequent abnormal transport close invokes no
reconnect: nothing is scheduled and the attempt counter is unchanged.
Only a successful open (via handleOpen) would touch the counter, and no
code path resets the flag after close(). -/
theorem C2_amended (J : Type) (env : Env J) (c : SocketClient) (newId tid tid2 : Nat) :
    (let c2 := (SocketClient.connect (J := J) ((SocketClient.close (J := J) c).1) newId false tid).1
     c2.isManualClose = true
       ∧ countSetTimeouts (step env c2 (Ev.closeEvt tid2)).2 = 0
       ∧ (step env c2 (Ev.closeEvt tid2)).1.currentReconnectAttempts
           = c2.currentReconnectAttempts) := by
  obtain ⟨cl1, cl2, cl3, cl4, cl5⟩ := close_spec J c
  have hc1open : ((SocketClient.close (J := J) c).1).wsIsOpen = false := by
    simp [SocketClient.wsIsOpen, cl4]
  have hc2 : (SocketClient.connect (J := J) ((SocketClient.close (J := J) c).1) newId false tid).1
      = { (SocketClient.close (J := J) c).1 with
          ws := some { id := newId, readyState := WebSocket.CONNECTING,
                       callbacksBoundToClient := true } } := by
    simp [SocketClient.connect, hc1open]
  have hman : (SocketClient.connect (J := J) ((SocketClient.close (J := J) c).1) newId false tid).1.isManualClose = true := by
    rw [hc2]
    simpa using cl3
  obtain ⟨e1, e2, e3, e4, e5, e6⟩ := envSetReadyState_spec
    ((SocketClient.connect (J := J) ((SocketClient.close (J := J) c).1) newId false tid).1)
    WebSocket.CLOSED
  have hmanE : (envSetReadyState
      ((SocketClient.connect (J := J) ((SocketClient.close (J := J) c).1) newId false tid).1)
      WebSocket.CLOSED).isManualClose = true := by
    rw [e3]
    exact hman
  obtain ⟨m1, m2, m3⟩ := handleClose_manual J _ env.thClose tid2 hmanE
  exact ⟨hman, m1, m2.trans e1⟩

theorem countOpenCalls_cons (h : Nat) (e : Effect J) (t : List (Effect J)) :
    countOpenCalls h (e :: t) = countOpenCalls h t + (if isCallOpenTo h e then 1 else 0) :=
  List.countP_cons _ _ _

theorem countOpenCalls_append (h : Nat) (a b : List (Effect J)) :
    countOpenCalls h (a ++ b) = countOpenCalls h a + countOpenCalls h b :=
  List.countP_append _ _ _

theorem startHeartbeat_countOpenCalls (J : Type) (c : SocketClient) (hbId h : Nat) :
    countOpenCalls h (SocketClient.startHeartbeat (J := J) c hbId).2 = 0 := by
  unfold SocketClient.startHeartbeat SocketClient.stopHeartbeat
  cases c.heartbeatTimer with
  | none => simp [countOpenCalls, isCallOpenTo]
  | some t => by_cases ht : t = 0 <;> simp [ht, countOpenCalls, isCallOpenTo]

theorem countCloseCalls_cons (h : Nat) (e : Effect J) (t : List (Effect J)) :
    countCloseCalls h (e :: t) = countCloseCalls h t + (if isCallCloseTo h e then 1 else 0) :=
  List.countP_cons _ _ _

theorem countCloseCalls_append (h : Nat) (a b : List (Effect J)) :
    countCloseCalls h (a ++ b) = countCloseCalls h a + countCloseCalls h b :=
  List.countP_append _ _ _

theorem countCloseCalls_map (h : Nat) (l : List Nat) :
    countCloseCalls h (l.map Effect.callClose : List (Effect J)) = l.count h := by
  unfold countCloseCalls
  rw [List.countP_map]
  have hfun : (isCallCloseTo h ∘ (Effect.callClose : Nat → Effect J)) = fun x => x == h := by
    funext x
    simp [Function.comp, isCallCloseTo]
  rw [hfun, List.count]

theorem countErrorCalls_cons (h : Nat) (e : Effect J) (t : List (Effect J)) :
    countErrorCalls h (e :: t) = countErrorCalls h t + (if isCallErrorTo h e then 1 else 0) :=
  List.countP_cons _ _ _

theorem countErrorCalls_map (h : Nat) (l : List Nat) :
    countErrorCalls h (l.map Effect.callError : List (Effect J)) = l.count h := by
  unfold countErrorCalls
  rw [List.countP_map]
  have hfun : (isCallErrorTo h ∘ (Effect.callError : Nat → Effect J)) = fun x => x == h := by
    funext x
    simp [Function.comp, isCallErrorTo]
  rw [hfun, List.count]

theorem stopHeartbeat_countCloseCalls (J : Type) (c : SocketClient) (h : Nat) :
    countCloseCalls h (SocketClient.stopHeartbeat (J := J) c).2 = 0 := by
  unfold SocketClient.stopHeartbeat
  cases c.heartbeatTimer with
  | none => simp [countCloseCalls, isCallCloseTo]
  | some t => by_cases ht : t = 0 <;> simp [ht, countCloseCalls, isCallCloseTo]

theorem reconnect_countCloseCalls (J : Type) (c : SocketClient) (tid h : Nat) :
    countCloseCalls h (SocketClient.reconnect (J := J) c tid).2 = 0 := by
  unfold SocketClient.reconnect
  by_cases hge : c.currentReconnectAttempts ≥ c.reconnectAttempts
  · simp [hge, countCloseCalls, isCallCloseTo]
  · simp [hge, countCloseCalls, isCallCloseTo]

/-- C5 counterexample: a single message subscriber (id 0) that throws
on the parsed value is invoked twice for one inbound message — once
with the parsed value and once with the raw payload — because the catch
around delivery re-runs the whole loop with the raw data. -/
theorem C5_counterexample :
    (let c := SocketClient.onMessage (SocketClient.init { url := "u" }) 0
     let r := SocketClient.handleMessage c (fun _ => some 42)
       (fun _ d => match d with | MsgData.parsed _ => true | MsgData.raw _ => false) "x"
     countMsgCalls 0 r.1 = 2
       ∧ r.1 = [Effect.callMessage 0 (MsgData.parsed 42),
                Effect.callMessage 0 (MsgData.raw "x")]) := by decide

/-- C5 (amended): an open, close or error subscriber is invoked at most
once per event of its kind (handler sets are duplicate-free and the
unguarded forEach stops at the first throwing handler without
re-running), and a message subscriber is invoked at most once per
inbound message provided no message subscriber throws during delivery;
if one throws after a successful parse, the delivery loop is re-run
with the raw payload, so earlier subscribers receive the message a
second time. -/
theorem C5_amended (J : Type) (parse : String → Option J) (c : SocketClient)
    (thO thC thE : Nat → Bool) (thM : Nat → MsgData J → Bool) (raw : String) (h hbId tid : Nat)
    (hnodupO : c.openHandlers.Nodup) (hnodupM : c.messageHandlers.Nodup)
    (hnodupC : c.closeHandlers.Nodup) (hnodupE : c.errorHandlers.Nodup)
    (hnothrow : ∀ x ∈ c.messageHandlers, ∀ d, thM x d = false) :
    countOpenCalls h (SocketClient.handleOpen (J := J) c hbId thO).2.1 ≤ 1
    ∧ countMsgCalls h (SocketClient.handleMessage c parse thM raw).1 ≤ 1
    ∧ countCloseCalls h (SocketClient.handleClose (J := J) c thC tid).2.1 ≤ 1
    ∧ countErrorCalls h (SocketClient.handleError (J := J) c thE).1 ≤ 1 := by
  refine ⟨?_, ?_, ?_, ?_⟩
  · have hsh := startHeartbeat_countOpenCalls J { c with currentReconnectAttempts := 0 } hbId h
    have htt : (takeThrough thO c.openHandlers).count h ≤ c.openHandlers.count h :=
      (takeThrough_sublist thO c.openHandlers).count_le h
    have hcnt : c.openHandlers.count h ≤ 1 := List.nodup_iff_count_le_one.mp hnodupO h
    simp only [SocketClient.handleOpen, runCallbacks_eq]
    simp only [countOpenCalls_cons, countOpenCalls_append, countOpenCalls_map, hsh,
      isCallOpenTo, Bool.false_eq_true, if_false]
    omega
  · cases hp : parse raw with
    | some j =>
        have hfalse : ∀ x ∈ c.messageHandlers, (fun y => thM y (MsgData.parsed j)) x = false :=
          fun x hx => hnothrow x hx _
        have hany : c.messageHandlers.any (fun y => thM y (MsgData.parsed j)) = false := by
          rw [List.any_eq_false]
          intro x hx
          simp [hfalse x hx]
        have htt := takeThrough_of_false _ _ hfalse
        simp only [SocketClient.handleMessage, hp, runCallbacks_eq, hany, Bool.false_eq_true,
          if_false]
        rw [htt, countMsgCalls_map]
        exact List.nodup_iff_count_le_one.mp hnodupM h
    | none =>
        have hfalse : ∀ x ∈ c.messageHandlers, (fun y => thM y (MsgData.raw raw)) x = false :=
          fun x hx => hnothrow x hx _
        have htt := takeThrough_of_false _ _ hfalse
        simp only [SocketClient.handleMessage, hp, runCallbacks_eq]
        rw [htt, countMsgCalls_map]
        exact List.nodup_iff_count_le_one.mp hnodupM h
  · have hsh := stopHeartbeat_countCloseCalls J c h
    have hrc := reconnect_countCloseCalls J (SocketClient.stopHeartbeat (J := J) c).1 tid h
    have htt : (takeThrough thC c.closeHandlers).count h ≤ c.closeHandlers.count h :=
      (takeThrough_sublist thC c.closeHandlers).count_le h
    have hcnt : c.closeHandlers.count h ≤ 1 := List.nodup_iff_count_le_one.mp hnodupC h
    simp only [SocketClient.handleClose, runCallbacks_eq]
    by_cases hth : c.closeHandlers.any thC
    · simp only [hth, if_true]
      simp only [countCloseCalls_cons, countCloseCalls_append, countCloseCalls_map, hsh,
        isCallCloseTo, Bool.false_eq_true, if_false]
      omega
    · simp only [hth, Bool.false_eq_true, if_false]
      by_cases hman : (SocketClient.stopHeartbeat (J := J) c).1.isManualClose
      · simp only [hman, if_true]
        simp only [countCloseCalls_cons, countCloseCalls_append, countCloseCalls_map, hsh,
          isCallCloseTo, Bool.false_eq_true, if_false]
        omega
      · simp only [hman, Bool.false_eq_true, if_false]
        simp only [countCloseCalls_cons, countCloseCalls_append, countCloseCalls_map, hsh, hrc,
          isCallCloseTo, Bool.false_eq_true, if_false]
        omega
  · have htt : (takeThrough thE c.errorHandlers).count h ≤ c.errorHandlers.count h :=
      (takeThrough_sublist thE c.errorHandlers).count_le h
    have hcnt : c.errorHandlers.count h ≤ 1 := List.nodup_iff_count_le_one.mp hnodupE h
    simp only [SocketClient.handleError, runCallbacks_eq]
    simp only [countErrorCalls_cons, countErrorCalls_map, isCallErrorTo, Bool.false_eq_true,
      if_false]
    omega

/-- C5 witness: with duplicate-free subscribers [0, 1] and none
throwing, subscriber 1 is invoked at most once by an open event. -/
theorem C5_witness :
    countOpenCalls 1 (SocketClient.handleOpen (J := Nat)
      (SocketClient.onOpen (SocketClient.onOpen (SocketClient.init { url := "u" }) 0) 1)
      9 (fun _ => false)).2.1 ≤ 1 :=
  (C5_amended Nat (fun _ => none)
    (SocketClient.onOpen (SocketClient.onOpen (SocketClient.init { url := "u" }) 0) 1)
    (fun _ => false) (fun _ => false) (fun _ => false) (fun _ _ => false) "m" 1 9 4
    (by decide) (by decide) (by decide) (by decide)
    (fun x hx => absurd hx (List.not_mem_nil x))).1

/-- C7: for every inbound message, if the payload parses, the parsed
value is delivered to every message subscriber in registration order
(no subscriber throwing); if parsing fails, the raw payload is
delivered verbatim to every subscriber instead; in both cases no
exception escapes (no parse error is surfaced) and no message is
dropped. -/
theorem C7_parseFallback (J : Type) (parse : String → Option J) (c : SocketClient)
    (th : Nat → MsgData J → Bool) (raw : String) (j : J) :
    (parse raw = some j → (∀ x ∈ c.messageHandlers, th x (MsgData.parsed j) = false) →
      SocketClient.handleMessage c parse th raw
        = (c.messageHandlers.map fun x => Effect.callMessage x (MsgData.parsed j), false))
    ∧ (parse raw = none → (∀ x ∈ c.messageHandlers, th x (MsgData.raw raw) = false) →
      SocketClient.handleMessage c parse th raw
        = (c.messageHandlers.map fun x => Effect.callMessage x (MsgData.raw raw), false)) := by
  constructor
  · intro hp hno
    have hfalse : ∀ x ∈ c.messageHandlers, (fun y => th y (MsgData.parsed j)) x = false :=
      fun x hx => hno x hx
    have hany : c.messageHandlers.any (fun y => th y (MsgData.parsed j)) = false := by
      rw [List.any_eq_false]
      intro x hx
      simp [hfalse x hx]
    have htt := takeThrough_of_false _ _ hfalse
    simp only [SocketClient.handleMessage, hp, runCallbacks_eq, hany, Bool.false_eq_true,
      if_false]
    rw [htt]
  · intro hp hno
    have hfalse : ∀ x ∈ c.messageHandlers, (fun y => th y (MsgData.raw raw)) x = false :=
      fun x hx => hno x hx
    have hany : c.messageHandlers.any (fun y => th y (MsgData.raw raw)) = false := by
      rw [List.any_eq_false]
      intro x hx
      simp [hfalse x hx]
    have htt := takeThrough_of_false _ _ hfalse
    simp only [SocketClient.handleMessage, hp, runCallbacks_eq]
    rw [htt, hany]

/-- C7 witness: with a parse that succeeds on "a" producing 5, the sole
subscriber receives the parsed value and no exception escapes. -/
theorem C7_witness :
    SocketClient.handleMessage (SocketClient.onMessage (SocketClient.init { url := "u" }) 0)
      (fun s => if s = "a" then some 5 else none) (fun _ _ => false) "a"
      = ([Effect.callMessage 0 (MsgData.parsed 5)], false) :=
  (C7_parseFallback Nat (fun s => if s = "a" then some 5 else none)
    (SocketClient.onMessage (SocketClient.init { url := "u" }) 0)
    (fun _ _ => false) "a" 5).1 (by decide) (by decide)

theorem stopHeartbeat_clears (J : Type) (c : SocketClient) (t : Nat)
    (ht : c.heartbeatTimer = some t) (htz : t ≠ 0) :
    (SocketClient.stopHeartbeat (J := J) c).1.heartbeatTimer = none
    ∧ (SocketClient.stopHeartbeat (J := J) c).2 = [Effect.clearIntervalT t] := by
  simp [SocketClient.stopHeartbeat, ht, htz]

theorem handleClose_effects_shape (J : Type) (c : SocketClient) (th : Nat → Bool) (tid : Nat) :
    ∃ rest, (SocketClient.handleClose (J := J) c th tid).2.1
      = Effect.consoleLog "WebSocket连接关闭" :: (SocketClient.stopHeartbeat (J := J) c).2 ++ rest := by
  simp only [SocketClient.handleClose, runCallbacks_eq]
  by_cases hth : c.closeHandlers.any th
  · refine ⟨(takeThrough th c.closeHandlers).map Effect.callClose, ?_⟩
    simp [hth]
  · by_cases hman : (SocketClient.stopHeartbeat (J := J) c).1.isManualClose
    · refine ⟨(takeThrough th c.closeHandlers).map Effect.callClose, ?_⟩
      simp [hth, hman]
    · refine ⟨(takeThrough th c.closeHandlers).map Effect.callClose
        ++ (SocketClient.reconnect (J := J) (SocketClient.stopHeartbeat (J := J) c).1 tid).2, ?_⟩
      simp [hth, hman, List.append_assoc]

theorem wsIsOpen_congr (c d : SocketClient) (h : c.ws = d.ws) :
    c.wsIsOpen = d.wsIsOpen := by
  unfold SocketClient.wsIsOpen
  rw [h]

theorem envSetClosed_notOpen (c : SocketClient) :
    (envSetReadyState c WebSocket.CLOSED).wsIsOpen = false := by
  unfold envSetReadyState SocketClient.wsIsOpen
  cases hws : c.ws with
  | none => simp [hws]
  | some w => simp [hws, WebSocket.CLOSED, WebSocket.OPEN]

/-- C8: a heartbeat tick sends the fixed serialized ping text through
the transport only when the transport is open at fire time (otherwise
the tick sends nothing); after a transport close event the live
heartbeat interval timer is cancelled, the stored handle is cleared,
and a subsequent tick sends nothing. -/
theorem C8_heartbeat (J : Type) (env : Env J) (c : SocketClient) (w : WS) (t tid : Nat) :
    (c.ws = some w → w.readyState = WebSocket.OPEN →
      SocketClient.heartbeatTick (J := J) c = [Effect.wsSend w.id (Payload.text pingMessage)])
    ∧ (c.wsIsOpen = false → SocketClient.heartbeatTick (J := J) c = [])
    ∧ (c.heartbeatTimer = some t → t ≠ 0 →
        ((step env c (Ev.closeEvt tid)).1.heartbeatTimer = none
          ∧ Effect.clearIntervalT t ∈ (step env c (Ev.closeEvt tid)).2))
    ∧ (SocketClient.heartbeatTick (J := J) (step env c (Ev.closeEvt tid)).1 = []) := by
  obtain ⟨e1, e2, e3, e4, e5, e6⟩ := envSetReadyState_spec c WebSocket.CLOSED
  obtain ⟨h1, h2, h3, h4, h5, h6⟩ :=
    handleClose_spec J (envSetReadyState c WebSocket.CLOSED) env.thClose tid
  refine ⟨?_, ?_, ?_, ?_⟩
  · intro hw hrs
    simp [SocketClient.heartbeatTick, SocketClient.wsIsOpen, hw, hrs, SocketClient.send]
  · intro hno
    simp [SocketClient.heartbeatTick, hno]
  · intro ht htz
    have htE : (envSetReadyState c WebSocket.CLOSED).heartbeatTimer = some t := by
      rw [e4, ht]
    obtain ⟨sc1, sc2⟩ := stopHeartbeat_clears J (envSetReadyState c WebSocket.CLOSED) t htE htz
    constructor
    · show (SocketClient.handleClose (envSetReadyState c WebSocket.CLOSED) env.thClose tid).1.heartbeatTimer = none
      rw [h6, sc1]
    · obtain ⟨rest, hshape⟩ :=
        handleClose_effects_shape J (envSetReadyState c WebSocket.CLOSED) env.thClose tid
      show Effect.clearIntervalT t
        ∈ (SocketClient.handleClose (envSetReadyState c WebSocket.CLOSED) env.thClose tid).2.1
      rw [hshape, sc2]
      simp
  · have hwclosed : (step env c (Ev.closeEvt tid)).1.wsIsOpen = false := by
      show (SocketClient.handleClose (envSetReadyState c WebSocket.CLOSED) env.thClose tid).1.wsIsOpen = false
      rw [wsIsOpen_congr
        (SocketClient.handleClose (envSetReadyState c WebSocket.CLOSED) env.thClose tid).1
        (envSetReadyState c WebSocket.CLOSED) h4]
      exact envSetClosed_notOpen c
    simp [SocketClient.heartbeatTick, hwclosed]

/-- C8 witness: an open client with transport id 1 sends the serialized
ping on a tick. -/
theorem C8_witness :
    SocketClient.heartbeatTick (J := Nat)
      { url := "u", protocols := none, heartbeatInterval := 10, reconnectInterval := 5,
        reconnectAttempts := 5, heartbeatTimer := some 3,
        ws := some { id := 1, readyState := 1, callbacksBoundToClient := true } }
      = [Effect.wsSend 1 (Payload.text pingMessage)] :=
  (C8_heartbeat Nat { parse := fun _ => none }
    { url := "u", protocols := none, heartbeatInterval := 10, reconnectInterval := 5,
      reconnectAttempts := 5, heartbeatTimer := some 3,
      ws := some { id := 1, readyState := 1, callbacksBoundToClient := true } }
    { id := 1, readyState := 1, callbacksBoundToClient := true } 3 7).1 rfl rfl

/-- C6: within one lifecycle (no transport open event among the
dispatched events) a client whose attempt counter starts at 0 schedules
at most reconnectAttempts reconnect retries; once the counter has
reached the ceiling, a further transport close schedules nothing; and a
transport open event always resets the counter to 0 regardless of prior
failures. -/
theorem C6_reconnectBudget (J : Type) (env : Env J) (c : SocketClient) (evs : List Ev)
    (hstart : c.currentReconnectAttempts = 0)
    (hnoopen : ∀ e ∈ evs, e.isOpenEvt = false) :
    (countSetTimeouts (run env c evs).2 ≤ c.reconnectAttempts)
    ∧ (∀ (d : SocketClient) (tid : Nat), d.reconnectAttempts ≤ d.currentReconnectAttempts →
        countSetTimeouts (step env d (Ev.closeEvt tid)).2 = 0)
    ∧ (∀ (d : SocketClient) (hbId : Nat),
        (step env d (Ev.openEvt hbId)).1.currentReconnectAttempts = 0) := by
  obtain ⟨r1, r2, r3⟩ := run_counter J env c evs hnoopen
  refine ⟨?_, ?_, ?_⟩
  · have hb := r3 (by rw [hstart]; exact Nat.zero_le _)
    rw [hstart] at r2
    omega
  · intro d tid hge
    obtain ⟨e1, e2, e3, e4, e5, e6⟩ := envSetReadyState_spec d WebSocket.CLOSED
    obtain ⟨h1, h2, h3, h4, h5, h6⟩ :=
      handleClose_spec J (envSetReadyState d WebSocket.CLOSED) env.thClose tid
    exact h5 (by rw [e1, e2]; exact hge)
  · intro d hbId
    obtain ⟨o1, o2, o3, o4, o5⟩ :=
      handleOpen_spec J (envSetReadyState d WebSocket.OPEN) hbId env.thOpen
    exact o1

/-- C6 witness: a fresh default client (ceiling 5) exposed to seven
consecutive abnormal closes schedules at most 5 reconnects. -/
theorem C6_witness :
    countSetTimeouts (run ({ parse := fun _ => none } : Env Nat)
      (SocketClient.init { url := "w" })
      [Ev.connectCall 1 false 0, Ev.closeEvt 11, Ev.closeEvt 12, Ev.closeEvt 13,
       Ev.closeEvt 14, Ev.closeEvt 15, Ev.closeEvt 16, Ev.closeEvt 17]).2 ≤ 5 :=
  (C6_reconnectBudget Nat { parse := fun _ => none } (SocketClient.init { url := "w" })
    [Ev.connectCall 1 false 0, Ev.closeEvt 11, Ev.closeEvt 12, Ev.closeEvt 13,
     Ev.closeEvt 14, Ev.closeEvt 15, Ev.closeEvt 16, Ev.closeEvt 17] rfl (by decide)).1

end VueSocket
